import Mathlib

/-!
Shallow embedding of the logstyx-js-express middleware
(express-middleware.js: createSuccessHandler, shouldLogSuccess,
shouldLogWarning, logSuccess, logWarning, createErrorHandler, logError,
redactObject), together with theorems settling the specification claims.

JavaScript values handled by redactObject are modelled by the inductive
type JsVal below: null, booleans, numbers, strings, arrays and plain
objects (ordered key/value lists, as produced by Object.entries).  The
Mongoose toObject branch of redactObject is the identity on plain values
and is therefore not represented.
-/

inductive JsVal where
  | vNull
  | vBool (b : Bool)
  | vNum (n : Int)
  | vStr (s : String)
  | vArr (elems : List JsVal)
  | vObj (fields : List (String × JsVal))

/-- Model of JavaScript String.prototype.toLowerCase, character by
character. -/
def jsToLower (s : String) : String := String.mk (s.data.map Char.toLower)

/-- In redactObject, recursion happens exactly when
`v !== null && typeof v === "object"`, i.e. on arrays and objects. -/
def JsVal.isObjectLike : JsVal → Bool
  | .vArr _ => true
  | .vObj _ => true
  | _ => false

mutual

/-- redactObject(obj, redactFields) from express-middleware.js.
Non-objects pass through unchanged; arrays and objects are rebuilt
entry by entry.  Object.entries of an array yields the decimal index
strings as keys, so array entries are checked against the field list
through their index string, exactly as the source does. -/
def redactObject (redactFields : List String) : JsVal → JsVal
  | JsVal.vArr elems => JsVal.vArr (redactArrayEntries redactFields 0 elems)
  | JsVal.vObj fields => JsVal.vObj (redactObjectEntries redactFields fields)
  | v => v
termination_by structural v => v

/-- The loop body of redactObject for an array input, index threaded. -/
def redactArrayEntries (redactFields : List String) (i : Nat) : List JsVal → List JsVal
  | [] => []
  | v :: rest =>
    (if redactFields.contains (jsToLower (Nat.repr i)) then JsVal.vStr "[REDACTED]"
     else if v.isObjectLike then redactObject redactFields v
     else v) :: redactArrayEntries redactFields (i + 1) rest
termination_by structural l => l

/-- The loop body of redactObject for a plain object input. -/
def redactObjectEntries (redactFields : List String) : List (String × JsVal) → List (String × JsVal)
  | [] => []
  | (k, v) :: rest =>
    (k, if redactFields.contains (jsToLower k) then JsVal.vStr "[REDACTED]"
        else if v.isObjectLike then redactObject redactFields v
        else v) :: redactObjectEntries redactFields rest
termination_by structural l => l

end

/-- True exactly on the literal replacement marker produced by redaction. -/
def isRedactedMark : JsVal → Bool
  | JsVal.vStr s => s == "[REDACTED]"
  | _ => false

mutual

/-- Checks that, at every depth of a value, every object field whose
lower-cased key is literally contained in the field list carries the
replacement marker. -/
def keysRedacted (redactFields : List String) : JsVal → Bool
  | JsVal.vArr elems => keysRedactedElems redactFields elems
  | JsVal.vObj fields => keysRedactedFields redactFields fields
  | _ => true
termination_by structural v => v

def keysRedactedElems (redactFields : List String) : List JsVal → Bool
  | [] => true
  | v :: rest => keysRedacted redactFields v && keysRedactedElems redactFields rest
termination_by structural l => l

def keysRedactedFields (redactFields : List String) : List (String × JsVal) → Bool
  | [] => true
  | (k, v) :: rest =>
    (!(redactFields.contains (jsToLower k)) || isRedactedMark v) &&
      keysRedacted redactFields v && keysRedactedFields redactFields rest
termination_by structural l => l

end

/-- The matching relation the specification describes for redaction: the
lower-cased key matches some entry of the field list case-insensitively
(so entries written with uppercase letters would still match). -/
def specCIMatch (redactFields : List String) (k : String) : Bool :=
  redactFields.any (fun f => jsToLower f == jsToLower k)

/-- Log level name mapping from the middleware configuration. -/
structure LogLevels where
  success : String
  error : String
  critical : String
  warning : String
deriving DecidableEq

/-- The default logLevels object of createExpressMiddleware. -/
def defaultLogLevels : LogLevels :=
  { success := "SUCCESS", error := "ERROR", critical := "CRITICAL", warning := "WARNING" }

/-- The configuration fields of createExpressMiddleware that the
response interception and error paths consult. -/
structure MwConfig where
  trackPerformance : Bool
  slowRequestThreshold : Nat
  logLevels : LogLevels
  redactFields : List String
deriving DecidableEq

/-- The default middleware configuration: trackPerformance on, slow
threshold 1000 ms, default level names and default redaction fields. -/
def defaultConfig : MwConfig :=
  { trackPerformance := true
  , slowRequestThreshold := 1000
  , logLevels := defaultLogLevels
  , redactFields := ["mobile", "phone", "email", "password", "token", "authorization", "creditCard"] }

/-- The method list of shouldLogSuccess. -/
def mutationMethods : List String := ["POST", "PUT", "PATCH", "DELETE"]

/-- shouldLogSuccess(res, req, config) from express-middleware.js.  The
config parameter is an Option because the call site inside
createSuccessHandler passes only two arguments, leaving it undefined.  A
recorded req._startTime is modelled as `some`, an absent one as `none`;
elapsed time is `now - st`. -/
def shouldLogSuccess (res_statusCode : Nat) (req_method : String)
    (config : Option MwConfig) (startTime : Option Nat) (now : Nat) : Bool :=
  let isSuccessful := decide (200 ≤ res_statusCode) && decide (res_statusCode < 300)
  let isMutation := mutationMethods.contains req_method
  if !isMutation then false
  else
    match config, startTime with
    | some c, some st =>
      if c.trackPerformance then
        if now - st > c.slowRequestThreshold then false else isSuccessful
      else isSuccessful
    | _, _ => isSuccessful

/-- shouldLogWarning(res, req, config) from express-middleware.js.  Note
that it performs no check on the request method. -/
def shouldLogWarning (res_statusCode : Nat) (config : Option MwConfig)
    (startTime : Option Nat) (now : Nat) : Bool :=
  match config, startTime with
  | some c, some st =>
    if !c.trackPerformance then false
    else
      let responseTime := now - st
      let isSlow := decide (responseTime > c.slowRequestThreshold)
      let isSuccessful := decide (200 ≤ res_statusCode) && decide (res_statusCode < 300)
      isSuccessful && isSlow
  | _, _ => false

/-- The two automatic outcome classifications of the success handler. -/
inductive AutoLog where
  | success
  | warning
deriving DecidableEq

/-- One call to a wrapped response method (send, json or end) inside
createSuccessHandler: given the shared logged flag and the ambient
response status and clock, it returns the new logged flag and the
emission, if any.  The call site passes `none` for the config parameter
of shouldLogSuccess, exactly as the source does. -/
def wrappedStep (config : MwConfig) (req_method : String) (startTime : Option Nat)
    (logged : Bool) (res_statusCode : Nat) (now : Nat) : Bool × Option AutoLog :=
  if !logged && shouldLogSuccess res_statusCode req_method none startTime now then
    (true, some AutoLog.success)
  else if !logged && shouldLogWarning res_statusCode (some config) startTime now then
    (true, some AutoLog.warning)
  else (logged, none)

/-- Either automatic classification would fire on this call. -/
def firesAutoLog (config : MwConfig) (req_method : String) (startTime : Option Nat)
    (res_statusCode : Nat) (now : Nat) : Bool :=
  shouldLogSuccess res_statusCode req_method none startTime now ||
    shouldLogWarning res_statusCode (some config) startTime now

/-- A finite sequence of calls to the wrapped response methods of one
request.  Each call carries the response status and clock at the moment
of the call, plus the argument handed to the underlying method; the
wrapper forwards the argument to the captured original and returns its
value, threading the shared logged flag.  The first component collects
the values returned by the original, the second the emitted logs in
order. -/
def runWrapped {α β : Type} (config : MwConfig) (req_method : String)
    (startTime : Option Nat) (original : α → β) (logged : Bool) :
    List (Nat × Nat × α) → List β × List AutoLog
  | [] => ([], [])
  | (sc, now, a) :: rest =>
    let s := wrappedStep config req_method startTime logged sc now
    let r := original a
    let t := runWrapped config req_method startTime original s.1 rest
    (r :: t.1, match s.2 with | some e => e :: t.2 | none => t.2)

/-- One wrapped call under a sink that may throw synchronously: in the
source, logSuccess and logWarning invoke the sink before the wrapper
reaches `originals[method].apply(this, args)`, and no try/catch guards
the call, so a throwing sink aborts the wrapped method before the
underlying response method runs. -/
def wrappedStepExc {α β : Type} (config : MwConfig) (req_method : String)
    (startTime : Option Nat) (sinkOk : AutoLog → Bool) (logged : Bool)
    (res_statusCode : Nat) (now : Nat) (original : α → β) (args : α) :
    Except Unit (β × Bool) :=
  let s := wrappedStep config req_method startTime logged res_statusCode now
  match s.2 with
  | some e => if sinkOk e then Except.ok (original args, s.1) else Except.error ()
  | none => Except.ok (original args, s.1)


/-- An error value as seen by the error path: the fields the handler
reads.  `none` stands for an absent (undefined) field. -/
structure JsError where
  statusCode : Option Nat
  status : Option Nat
  message : Option String
  stack : Option String
  code : Option String
  ctorName : Option String
deriving DecidableEq

/-- JavaScript `a || b` over an optional number: undefined and 0 are
falsy and fall through to the default. -/
def jsOrNat : Option Nat → Nat → Nat
  | some n, b => if n = 0 then b else n
  | none, b => b

/-- JavaScript `a || b` over an optional string: undefined and the empty
string are falsy and fall through to the default. -/
def jsOrStr : Option String → String → String
  | some s, b => if s = "" then b else s
  | none, b => b

/-- The JSON body and status the error handler sends to the client. -/
structure ErrorClientResponse where
  status : Nat
  error : String
  stack : Option String
deriving DecidableEq

/-- createErrorHandler from express-middleware.js: the client response.
Status is `err.statusCode || err.status || 500`; the body carries
`err.message` with a generic fallback, and the stack only in a
development environment. -/
def errorClientResponse (err : JsError) (isDevelopment : Bool) : ErrorClientResponse :=
  { status := jsOrNat err.statusCode (jsOrNat err.status 500)
  , error := jsOrStr err.message "Internal Server Error"
  , stack := if isDevelopment then err.stack else none }

/-- The record handed to the sink by logError (context fields from
buildFinalPayload are orthogonal to the claims and omitted).  In the
source, responseTime is null when performance tracking is off and NaN
when no start time was recorded; both are modelled as `none` (both
compare false against the threshold). -/
structure ErrorLogData where
  title : String
  message : Option String
  stack : Option String
  errorType : Option String
  code : Option String
  body : JsVal
  responseTime : Option Nat
  statusCode : Nat

/-- logError(err, req, config) from express-middleware.js: the record it
builds.  Its statusCode field is `err?.statusCode || err?.status || 500`. -/
def logErrorRecord (config : MwConfig) (err : JsError) (req_method req_path : String)
    (req_body : JsVal) (startTime : Option Nat) (now : Nat) : ErrorLogData :=
  { title := req_method ++ " " ++ req_path
  , message := err.message
  , stack := err.stack
  , errorType := err.ctorName
  , code := err.code
  , body := redactObject config.redactFields req_body
  , responseTime :=
      if config.trackPerformance then startTime.map (fun st => now - st) else none
  , statusCode := jsOrNat err.statusCode (jsOrNat err.status 500) }

/-- The level name logError selects: `err.statusCode >= 500 ?
config.logLevels.critical : config.logLevels.error`.  An undefined
statusCode compares false against 500, so only the explicit statusCode
field is consulted, never the status alias nor the 500 default. -/
def logErrorLevel (config : MwConfig) (err : JsError) : String :=
  match err.statusCode with
  | some n => if 500 ≤ n then config.logLevels.critical else config.logLevels.error
  | none => config.logLevels.error

/-- The whole error handler under a sink that may throw: the client
response is produced by res.status(...).json(...) before logError runs,
so it is independent of the sink call outcome, which is reported in the
second component. -/
def errorHandlerRun (config : MwConfig) (sinkOk : Bool) (err : JsError)
    (isDevelopment : Bool) (req_method req_path : String) (req_body : JsVal)
    (startTime : Option Nat) (now : Nat) :
    ErrorClientResponse × Except Unit (ErrorLogData × String) :=
  ( errorClientResponse err isDevelopment
  , if sinkOk then
      Except.ok (logErrorRecord config err req_method req_path req_body startTime now,
        logErrorLevel config err)
    else Except.error () )

/-- JavaScript `x > t` where x may be null or NaN: both compare false
against a natural threshold (null coerces to 0 and 0 > t fails; NaN
comparisons are always false). -/
def jsGtOpt : Option Nat → Nat → Bool
  | some r, t => decide (r > t)
  | none, _ => false

/-- The record handed to the sink by logSuccess (payload context fields
omitted, as for logError).  The response field is only populated for
json and send calls, never for end. -/
structure SuccessLogData where
  title : String
  message : String
  body : JsVal
  response : Option JsVal
  responseTime : Option Nat
  statusCode : Nat
  isSlow : Bool

/-- logSuccess(req, res, method, args, config) from
express-middleware.js: the record it builds. -/
def logSuccessRecord (config : MwConfig) (req_method req_path : String)
    (methodName : String) (arg0 : JsVal) (req_body : JsVal)
    (startTime : Option Nat) (now : Nat) (res_statusCode : Nat) : SuccessLogData :=
  let responseTime : Option Nat :=
    if config.trackPerformance then startTime.map (fun st => now - st) else none
  { title := req_method ++ " " ++ req_path
  , message := "Request completed successfully"
  , body := redactObject config.redactFields req_body
  , response :=
      if methodName == "json" || methodName == "send" then
        some (redactObject config.redactFields arg0)
      else none
  , responseTime := responseTime
  , statusCode := res_statusCode
  , isSlow := jsGtOpt responseTime config.slowRequestThreshold }

/-- Redaction maps arrays to arrays and objects to objects, so the
recursion guard of redactObject sees the same shape before and after. -/
theorem redactObject_isObjectLike (F : List String) (v : JsVal) :
    (redactObject F v).isObjectLike = v.isObjectLike := by
  cases v <;> simp [redactObject, JsVal.isObjectLike]

/-- Values that are neither arrays nor objects carry no keys, so the
key-redaction check holds on them vacuously. -/
theorem keysRedacted_of_not_objectLike (F : List String) (v : JsVal)
    (h : ¬ v.isObjectLike = true) : keysRedacted F v = true := by
  cases v <;> simp_all [JsVal.isObjectLike, keysRedacted]

mutual

theorem redactObject_idem (F : List String) :
    (v : JsVal) → redactObject F (redactObject F v) = redactObject F v
  | JsVal.vNull => rfl
  | JsVal.vBool _ => rfl
  | JsVal.vNum _ => rfl
  | JsVal.vStr _ => rfl
  | JsVal.vArr elems => by
      simp only [redactObject]
      exact congrArg JsVal.vArr (redactArrayEntries_idem F 0 elems)
  | JsVal.vObj fields => by
      simp only [redactObject]
      exact congrArg JsVal.vObj (redactObjectEntries_idem F fields)
termination_by structural v => v

theorem redactArrayEntries_idem (F : List String) :
    (i : Nat) → (l : List JsVal) →
      redactArrayEntries F i (redactArrayEntries F i l) = redactArrayEntries F i l
  | _, [] => rfl
  | i, v :: rest => by
      by_cases hc : jsToLower (Nat.repr i) ∈ F
      · simp [redactArrayEntries, hc, redactArrayEntries_idem F (i + 1) rest,
          JsVal.isObjectLike]
      · by_cases ho : v.isObjectLike = true
        · simp [redactArrayEntries, hc, ho, redactObject_isObjectLike,
            redactObject_idem F v, redactArrayEntries_idem F (i + 1) rest]
        · simp [redactArrayEntries, hc, ho, redactArrayEntries_idem F (i + 1) rest]
termination_by structural i l => l

theorem redactObjectEntries_idem (F : List String) :
    (l : List (String × JsVal)) →
      redactObjectEntries F (redactObjectEntries F l) = redactObjectEntries F l
  | [] => rfl
  | (k, v) :: rest => by
      by_cases hc : jsToLower k ∈ F
      · simp [redactObjectEntries, hc, redactObjectEntries_idem F rest,
          JsVal.isObjectLike]
      · by_cases ho : v.isObjectLike = true
        · simp [redactObjectEntries, hc, ho, redactObject_isObjectLike,
            redactObject_idem F v, redactObjectEntries_idem F rest]
        · simp [redactObjectEntries, hc, ho, redactObjectEntries_idem F rest]
termination_by structural l => l

end

mutual

theorem keysRedacted_redactObject (F : List String) :
    (v : JsVal) → keysRedacted F (redactObject F v) = true
  | JsVal.vNull => rfl
  | JsVal.vBool _ => rfl
  | JsVal.vNum _ => rfl
  | JsVal.vStr _ => rfl
  | JsVal.vArr elems => by
      simp only [redactObject, keysRedacted]
      exact keysRedactedElems_redact F 0 elems
  | JsVal.vObj fields => by
      simp only [redactObject, keysRedacted]
      exact keysRedactedFields_redact F fields
termination_by structural v => v

theorem keysRedactedElems_redact (F : List String) :
    (i : Nat) → (l : List JsVal) →
      keysRedactedElems F (redactArrayEntries F i l) = true
  | _, [] => rfl
  | i, v :: rest => by
      by_cases hc : jsToLower (Nat.repr i) ∈ F
      · simp [redactArrayEntries, hc, keysRedactedElems, keysRedacted,
          keysRedactedElems_redact F (i + 1) rest]
      · by_cases ho : v.isObjectLike = true
        · simp [redactArrayEntries, hc, ho, keysRedactedElems,
            keysRedacted_redactObject F v, keysRedactedElems_redact F (i + 1) rest]
        · simp [redactArrayEntries, hc, ho, keysRedactedElems,
            keysRedacted_of_not_objectLike F v ho,
            keysRedactedElems_redact F (i + 1) rest]
termination_by structural i l => l

theorem keysRedactedFields_redact (F : List String) :
    (l : List (String × JsVal)) →
      keysRedactedFields F (redactObjectEntries F l) = true
  | [] => rfl
  | (k, v) :: rest => by
      by_cases hc : jsToLower k ∈ F
      · simp [redactObjectEntries, hc, keysRedactedFields, isRedactedMark,
          keysRedacted, keysRedactedFields_redact F rest]
      · by_cases ho : v.isObjectLike = true
        · simp [redactObjectEntries, hc, ho, keysRedactedFields,
            keysRedacted_redactObject F v, keysRedactedFields_redact F rest]
        · simp [redactObjectEntries, hc, ho, keysRedactedFields,
            keysRedacted_of_not_objectLike F v ho,
            keysRedactedFields_redact F rest]
termination_by structural l => l

end

/-- With the logged flag already set, a wrapped call emits nothing and
keeps the flag set. -/
theorem wrappedStep_logged (config : MwConfig) (m : String) (st : Option Nat)
    (sc now : Nat) : wrappedStep config m st true sc now = (true, none) := rfl

/-- Once logged, the remaining calls of a request emit nothing. -/
theorem runWrapped_logged_no_emit {α β : Type} (config : MwConfig) (m : String)
    (st : Option Nat) (f : α → β) :
    (calls : List (Nat × Nat × α)) → (runWrapped config m st f true calls).2 = []
  | [] => rfl
  | (sc, now, a) :: rest => by
      simp [runWrapped, wrappedStep_logged,
        runWrapped_logged_no_emit config m st f rest]

/-- Emission behaviour of a whole request starting unlogged: at most one
automatic log is emitted, and one is emitted exactly when some call of
the sequence satisfies a classification predicate at the moment of the
call. -/
theorem runWrapped_emission_spec {α β : Type} (config : MwConfig) (m : String)
    (st : Option Nat) (f : α → β) :
    (calls : List (Nat × Nat × α)) →
      (runWrapped config m st f false calls).2.length ≤ 1 ∧
        ((runWrapped config m st f false calls).2 ≠ [] ↔
          calls.any (fun c => firesAutoLog config m st c.1 c.2.1) = true)
  | [] => by simp [runWrapped]
  | (sc, now, a) :: rest => by
      cases hS : shouldLogSuccess sc m none st now <;>
        cases hW : shouldLogWarning sc (some config) st now
      · have ih := runWrapped_emission_spec config m st f rest
        simpa [runWrapped, wrappedStep, firesAutoLog, hS, hW] using ih
      · simp [runWrapped, wrappedStep, firesAutoLog, hS, hW,
          runWrapped_logged_no_emit config m st f rest]
      · simp [runWrapped, wrappedStep, firesAutoLog, hS, hW,
          runWrapped_logged_no_emit config m st f rest]
      · simp [runWrapped, wrappedStep, firesAutoLog, hS, hW,
          runWrapped_logged_no_emit config m st f rest]

/-- A wrapped call that emits nothing leaves the logged flag unchanged. -/
theorem wrappedStep_none_fst (config : MwConfig) (m : String) (st : Option Nat)
    (logged : Bool) (sc now : Nat)
    (h : (wrappedStep config m st logged sc now).2 = none) :
    (wrappedStep config m st logged sc now).1 = logged := by
  unfold wrappedStep at h ⊢
  split at h
  · simp at h
  · split at h
    · simp at h
    · rename_i h1 h2
      simp [h1, h2]

/-- C1 counterexample: a completed GET request with status 200, elapsed
5000 ms and threshold 1000 ms does produce an automatic log — a WARNING
— because shouldLogWarning never checks the request method. -/
theorem slow_get_emits_warning :
    wrappedStep defaultConfig "GET" (some 0) false 200 5000
      = (true, some AutoLog.warning) := by decide

/-- C1 (amended): a request whose method is not in the mutation list
never receives an automatic SUCCESS log; however it receives an
automatic WARNING exactly when the flag is still unset and
shouldLogWarning holds at the call, which happens for a slow 2xx
response with performance tracking on and a recorded start time. -/
theorem readonly_methods_autolog (config : MwConfig) (m : String)
    (st : Option Nat) (logged : Bool) (sc now : Nat)
    (h : mutationMethods.contains m = false) :
    (wrappedStep config m st logged sc now).2 ≠ some AutoLog.success ∧
      ((wrappedStep config m st logged sc now).2 = some AutoLog.warning ↔
        logged = false ∧ shouldLogWarning sc (some config) st now = true) := by
  have h' : m ∉ mutationMethods := by simpa using h
  cases logged <;>
    cases hW : shouldLogWarning sc (some config) st now <;>
      simp [wrappedStep, shouldLogSuccess, h', hW]

/-- Witness for the amended C1 theorem at GET, status 200, elapsed
5000 ms, threshold 1000 ms. -/
theorem readonly_methods_autolog_witness :
    mutationMethods.contains "GET" = false ∧
      ((wrappedStep defaultConfig "GET" (some 0) false 200 5000).2 ≠ some AutoLog.success ∧
        ((wrappedStep defaultConfig "GET" (some 0) false 200 5000).2 = some AutoLog.warning ↔
          false = false ∧ shouldLogWarning 200 (some defaultConfig) (some 0) 5000 = true)) :=
  ⟨by decide, readonly_methods_autolog defaultConfig "GET" (some 0) false 200 5000 (by decide)⟩

/-- C2: on a 200 PUT with elapsed 1500 ms and threshold 1000 ms the
source emits SUCCESS, not WARNING: createSuccessHandler invokes
shouldLogSuccess with only two arguments, so the slow-request guard
inside shouldLogSuccess (whose own comment says a slow request will be
logged as a warning instead) never runs.  The second conjunct shows the
guard would reject the success classification had config been passed. -/
theorem slow_put_emits_success_not_warning :
    wrappedStep defaultConfig "PUT" (some 0) false 200 1500
        = (true, some AutoLog.success) ∧
      shouldLogSuccess 200 "PUT" (some defaultConfig) (some 0) 1500 = false := by
  decide

/-- C3 counterexample: an error carrying its status only in the
conventional `status` alias resolves to 503 in the log record, yet is
logged at ERROR, because the level test reads only `err.statusCode`. -/
theorem status_alias_503_logged_error :
    (logErrorRecord defaultConfig
        { statusCode := none, status := some 503, message := none,
          stack := none, code := none, ctorName := none }
        "GET" "/a" JsVal.vNull none 0).statusCode = 503 ∧
      500 ≤ 503 ∧
      logErrorLevel defaultConfig
          { statusCode := none, status := some 503, message := none,
            stack := none, code := none, ctorName := none } = "ERROR" ∧
      ("ERROR" : String) ≠ "CRITICAL" := by
  refine ⟨by decide, by decide, by decide, by decide⟩

/-- C3 (amended): under the default level names, the error path logs at
CRITICAL exactly when the explicit statusCode field is present and at
least 500, and at ERROR otherwise; the status alias and the 500 default
feed the recorded status code but never the severity. -/
theorem logError_level_spec (err : JsError) :
    (logErrorLevel defaultConfig err = "CRITICAL" ↔
        (∃ n, err.statusCode = some n ∧ 500 ≤ n)) ∧
      (logErrorLevel defaultConfig err = "ERROR" ↔
        ¬ (∃ n, err.statusCode = some n ∧ 500 ≤ n)) := by
  cases h : err.statusCode with
  | none => simp [logErrorLevel, h, defaultConfig, defaultLogLevels]
  | some n =>
      by_cases hn : 500 ≤ n <;>
        simp [logErrorLevel, h, hn, defaultConfig, defaultLogLevels]

/-- C4 counterexample: the default field list spells creditCard with an
uppercase letter; a key that matches it case-insensitively (as the
claim demands) is left untouched, because the source compares the
lower-cased key by exact equality against the entries as written. -/
theorem creditCard_not_redacted :
    specCIMatch ["creditCard"] "creditCard" = true ∧
      redactObject ["creditCard"] (JsVal.vObj [("creditCard", JsVal.vStr "4111")])
          = JsVal.vObj [("creditCard", JsVal.vStr "4111")] ∧
      ("4111" : String) ≠ "[REDACTED]" :=
  ⟨by decide, rfl, by decide⟩

/-- C4 (amended): redaction totality holds for literal matching: in the
output of redactObject, every mapping key at any depth whose lower-cased
form is literally an element of the field list carries exactly the
string [REDACTED].  Entries of the field list containing uppercase
letters never match. -/
theorem redaction_totality (F : List String) (v : JsVal) :
    keysRedacted F (redactObject F v) = true :=
  keysRedacted_redactObject F v

/-- C5 counterexample: with method GET, threshold 1000 ms and start time
0, the call sequence end-at-500ms then end-at-2000ms emits its single
automatic log at the second call: the first call alone emits nothing,
so the emission does not correspond to the first call of the sequence. -/
theorem autolog_fires_on_second_call :
    (runWrapped defaultConfig "GET" (some 0) (fun _ : Unit => ()) false
        [(200, 500, ())]).2 = [] ∧
      (runWrapped defaultConfig "GET" (some 0) (fun _ : Unit => ()) false
        [(200, 500, ()), (200, 2000, ())]).2 = [AutoLog.warning] := by
  exact ⟨by decide, by decide⟩

/-- C5 (amended): over any finite sequence of calls to the wrapped
response operations of one request, at most one automatic log is
emitted, and one is emitted iff some call of the sequence satisfies a
classification predicate at the moment of that call — the emission
corresponds to the first such qualifying call, which need not be the
first call of the sequence. -/
theorem at_most_one_autolog {α β : Type} (config : MwConfig) (m : String)
    (st : Option Nat) (f : α → β) (calls : List (Nat × Nat × α)) :
    (runWrapped config m st f false calls).2.length ≤ 1 ∧
      ((runWrapped config m st f false calls).2 ≠ [] ↔
        calls.any (fun c => firesAutoLog config m st c.1 c.2.1) = true) :=
  runWrapped_emission_spec config m st f calls

/-- C6: transparency of the interceptor: whatever the logged flag and
whatever automatic logs fire, the values returned by the wrapped
response operations are exactly those the underlying original
operations return on the original arguments. -/
theorem wrapped_calls_transparent {α β : Type} (config : MwConfig) (m : String)
    (st : Option Nat) (f : α → β) :
    (logged : Bool) → (calls : List (Nat × Nat × α)) →
      (runWrapped config m st f logged calls).1 = calls.map (fun c => f c.2.2)
  | _, [] => rfl
  | logged, (sc, now, a) :: rest => by
      simp [runWrapped, wrapped_calls_transparent config m st f
        (wrappedStep config m st logged sc now).1 rest]

/-- C7: redaction is idempotent: applying redactObject twice with the
same field list gives the same value as applying it once. -/
theorem redaction_idempotent (F : List String) (v : JsVal) :
    redactObject F (redactObject F v) = redactObject F v :=
  redactObject_idem F v

/-- C8 counterexample: on the success path a synchronously throwing sink
aborts the wrapped call before the underlying response method runs —
for a 201 POST at 50 ms the wrapped call raises instead of sending, so
the sink fault propagates into the request/response cycle. -/
theorem sink_fault_blocks_response :
    wrappedStepExc defaultConfig "POST" (some 0) (fun _ => false) false 201 50
      (fun n : Nat => n) 7 = Except.error () := rfl

/-- C8 (amended): sink faults are isolated only on the error path, where
the client response is produced before logError runs and is therefore
independent of the sink outcome; on the success path a call that emits
no automatic log is unaffected by the sink, but a call that does emit is
aborted by a throwing sink (no isolation, as the counterexample shows). -/
theorem sink_fault_isolation (config : MwConfig) (sOk : Bool)
    (sinkOk : AutoLog → Bool) (err : JsError) (dev : Bool) (m p : String)
    (body : JsVal) (st : Option Nat) (now sc clock : Nat) (logged : Bool)
    (f : Nat → Nat) (a : Nat) :
    (errorHandlerRun config sOk err dev m p body st now).1
        = errorClientResponse err dev ∧
      ((wrappedStep config m st logged sc clock).2 = none →
        wrappedStepExc config m st sinkOk logged sc clock f a
          = Except.ok (f a, logged)) := by
  refine ⟨rfl, fun h => ?_⟩
  have h1 := wrappedStep_none_fst config m st logged sc clock h
  simp [wrappedStepExc, h, h1]

/-- Witness for the amended C8 theorem: a fast 200 GET emits nothing, so
even a sink that always throws leaves the wrapped call returning the
original result; and the error-path client response is the same whether
the sink throws or not. -/
theorem sink_fault_isolation_witness :
    (wrappedStep defaultConfig "GET" (some 0) false 200 10).2 = none ∧
      ((errorHandlerRun defaultConfig false
            { statusCode := none, status := none, message := none,
              stack := none, code := none, ctorName := none }
            false "GET" "/a" JsVal.vNull (some 0) 10).1
          = errorClientResponse
              { statusCode := none, status := none, message := none,
                stack := none, code := none, ctorName := none } false ∧
        wrappedStepExc defaultConfig "GET" (some 0) (fun _ => false) false 200 10
            (fun n : Nat => n + 1) 41 = Except.ok (42, false)) :=
  ⟨by decide,
    (sink_fault_isolation defaultConfig false (fun _ => false)
      { statusCode := none, status := none, message := none,
        stack := none, code := none, ctorName := none }
      false "GET" "/a" JsVal.vNull (some 0) 10 200 10 false
      (fun n => n + 1) 41).1,
    (sink_fault_isolation defaultConfig false (fun _ => false)
      { statusCode := none, status := none, message := none,
        stack := none, code := none, ctorName := none }
      false "GET" "/a" JsVal.vNull (some 0) 10 200 10 false
      (fun n => n + 1) 41).2 (by decide)⟩

/-- C9: with performance tracking disabled, every automatic success log
record has a null elapsed time and a false isSlow flag (null compares
false against the threshold), and the WARNING classification can never
be produced by a wrapped call. -/
theorem no_tracking_success_record (config : MwConfig) (m p mn : String)
    (arg0 body : JsVal) (st : Option Nat) (now sc : Nat) (logged : Bool)
    (sc2 now2 : Nat) (h : config.trackPerformance = false) :
    (logSuccessRecord config m p mn arg0 body st now sc).responseTime = none ∧
      (logSuccessRecord config m p mn arg0 body st now sc).isSlow = false ∧
      (wrappedStep config m st logged sc2 now2).2 ≠ some AutoLog.warning := by
  refine ⟨?_, ?_, ?_⟩
  · simp [logSuccessRecord, h]
  · simp [logSuccessRecord, h, jsGtOpt]
  · have hW : shouldLogWarning sc2 (some config) st now2 = false := by
      cases st <;> simp [shouldLogWarning, h]
    cases hS : shouldLogSuccess sc2 m none st now2 <;>
      cases logged <;> simp [wrappedStep, hS, hW]

/-- Witness for the C9 theorem at a tracking-off configuration. -/
theorem no_tracking_success_record_witness :
    (MwConfig.trackPerformance ⟨false, 1000, defaultLogLevels, []⟩ = false) ∧
      ((logSuccessRecord ⟨false, 1000, defaultLogLevels, []⟩ "POST" "/a" "json"
            JsVal.vNull JsVal.vNull (some 0) 40 201).responseTime = none ∧
        (logSuccessRecord ⟨false, 1000, defaultLogLevels, []⟩ "POST" "/a" "json"
            JsVal.vNull JsVal.vNull (some 0) 40 201).isSlow = false ∧
        (wrappedStep ⟨false, 1000, defaultLogLevels, []⟩ "POST" (some 0) false 201 40).2
          ≠ some AutoLog.warning) :=
  ⟨rfl, no_tracking_success_record ⟨false, 1000, defaultLogLevels, []⟩ "POST" "/a"
    "json" JsVal.vNull JsVal.vNull (some 0) 40 201 false 201 40 rfl⟩

/-- C10: for every error, the status of the client-facing JSON response
equals the statusCode field of the emitted error log record; both are
resolved as statusCode, else status, else 500, with JavaScript
truthiness. -/
theorem client_status_eq_log_status (config : MwConfig) (err : JsError)
    (dev : Bool) (m p : String) (body : JsVal) (st : Option Nat) (now : Nat) :
    (errorClientResponse err dev).status
      = (logErrorRecord config err m p body st now).statusCode := rfl
